import Mathlib

/-!
Verification of the ai-compare repository.

The repository has two relevant pieces of source code:

* `src/pages/api/query.js` — the backend API handler (`handler`) with its
  static `PROVIDERS` registry.  It is embedded below as a pure function of
  the inbound request, the process environment, and a fetch oracle that
  models the single outbound network call.
* the `AICompare` React component (src/unnamed/part_000, the version with
  the summary feature) — the fan-out coordinator and summary trigger.  It
  is embedded as an explicit state machine: component state plus event
  application functions mirroring `handleSubmit`, the per-provider fetch
  completions, the `useEffect` summary trigger, and `generateSummary`'s
  completion.

JavaScript values that the code inspects only through truthiness and
field access are modelled with a small `Json` type; `undefined` is
modelled as `Option.none` at the places where the code can observe it.
-/

/-- JSON values, as decoded by `JSON.parse` / `response.json()`.
Numbers are modelled as integers (no claim depends on fractional values). -/
inductive Json where
  | null : Json
  | bool (b : Bool) : Json
  | num (n : Int) : Json
  | str (s : String) : Json
  | arr (elems : List Json) : Json
  | obj (fields : List (String × Json)) : Json

/-- JavaScript truthiness of a `Json` value. -/
def jsTruthyJ : Json → Bool
  | Json.null => false
  | Json.bool b => b
  | Json.num n => n != 0
  | Json.str s => s != ""
  | Json.arr _ => true
  | Json.obj _ => true

/-- JavaScript truthiness of a possibly-`undefined` value (`none` = undefined). -/
def jsTruthy : Option Json → Bool
  | none => false
  | some j => jsTruthyJ j

/-- JavaScript truthiness of a possibly-absent string (`none` = undefined). -/
def truthyOptStr : Option String → Bool
  | none => false
  | some s => s != ""

/-- JavaScript member access `j.k` on a defined value.  Access on `null`
throws a TypeError (`Except.error`); access on an object looks the key up
(`JSON.parse` keeps the last duplicate key, hence the `reverse`); access on
any other value yields `undefined`. -/
def jsGet (j : Json) (k : String) : Except Unit (Option Json) :=
  match j with
  | Json.null => Except.error ()
  | Json.obj fields => Except.ok (fields.reverse.lookup k)
  | _ => Except.ok none

/-- JavaScript member access `x.k` where `x` itself may be `undefined`
(access on `undefined` throws). -/
def jsGetO (x : Option Json) (k : String) : Except Unit (Option Json) :=
  match x with
  | none => Except.error ()
  | some j => jsGet j k

/-- JavaScript index access `x[i]`: throws on `undefined`/`null`, indexes
arrays, looks numeric keys up on objects, indexes strings character-wise,
and yields `undefined` on other primitives. -/
def jsIndex (x : Option Json) (i : Nat) : Except Unit (Option Json) :=
  match x with
  | none => Except.error ()
  | some Json.null => Except.error ()
  | some (Json.arr elems) => Except.ok (elems.get? i)
  | some (Json.obj fields) => Except.ok (fields.reverse.lookup (toString i))
  | some (Json.str s) => Except.ok ((s.data.get? i).map fun c => Json.str (String.mk [c]))
  | some _ => Except.ok none

/-- JavaScript optional chaining `x?.k`: short-circuits to `undefined` on
`undefined`/`null`, never throws. -/
def jsOptChain (x : Option Json) (k : String) : Option Json :=
  match x with
  | none => none
  | some Json.null => none
  | some j =>
    match jsGet j k with
    | Except.ok v => v
    | Except.error _ => none

/-- JavaScript optional-chained index `x?.[i]`. -/
def jsOptIdx (x : Option Json) (i : Nat) : Option Json :=
  match x with
  | none => none
  | some Json.null => none
  | some j =>
    match jsIndex (some j) i with
    | Except.ok v => v
    | Except.error _ => none

/-- The five providers of the registry, in registry order. -/
inductive Provider where
  | chatgpt | claude | gemini | grok | perplexity
deriving DecidableEq, Repr

/-- Registry order: `AI_PROVIDERS` in the component and the key order of
`PROVIDERS` in `api/query.js` agree. -/
def allProviders : List Provider :=
  [Provider.chatgpt, Provider.claude, Provider.gemini, Provider.grok, Provider.perplexity]

theorem mem_allProviders (p : Provider) : p ∈ allProviders := by
  cases p <;> simp [allProviders]

/-- Provider id strings (the `id` field / `PROVIDERS` keys). -/
def providerId : Provider → String
  | Provider.chatgpt => "chatgpt"
  | Provider.claude => "claude"
  | Provider.gemini => "gemini"
  | Provider.grok => "grok"
  | Provider.perplexity => "perplexity"

/-- `keyEnvVar` field of each `PROVIDERS` entry in `api/query.js`. -/
def keyEnvVar : Provider → String
  | Provider.chatgpt => "OPENAI_API_KEY"
  | Provider.claude => "ANTHROPIC_API_KEY"
  | Provider.gemini => "GOOGLE_API_KEY"
  | Provider.grok => "XAI_API_KEY"
  | Provider.perplexity => "PERPLEXITY_API_KEY"

/-- `modelName` field of each `PROVIDERS` entry in `api/query.js`. -/
def modelName : Provider → String
  | Provider.chatgpt => "GPT-5.2"
  | Provider.claude => "Claude Opus 4.5"
  | Provider.gemini => "Gemini 3 Pro"
  | Provider.grok => "Grok 4"
  | Provider.perplexity => "Sonar Pro"

/-- `useDynamicUrl` flag: only the gemini entry sets it. -/
def useDynamicUrl : Provider → Bool
  | Provider.gemini => true
  | _ => false

/-- Model of the runtime TypeError message raised by a member access on
`undefined`; its exact text is engine-dependent and no theorem relies on it. -/
def typeErrorMessage : String := "Cannot read properties of undefined"

/-- Model of the runtime SyntaxError message raised by `response.json()` on
an unparsable body; its exact text is engine-dependent and no theorem
relies on it. -/
def jsonParseErrorMessage : String := "Unexpected end of JSON input"

/-- `extractResponse` for chatgpt, grok and perplexity:
`(data) => data.choices[0].message.content`.  A thrown TypeError is the
`Except.error` case; a defined result that is merely `undefined` (the final
field absent) is `Except.ok none`. -/
def extractChoices (data : Json) : Except String (Option Json) :=
  match (do
      let choices ← jsGet data "choices"
      let c0 ← jsIndex choices 0
      let msg ← jsGetO c0 "message"
      jsGetO msg "content" : Except Unit (Option Json)) with
  | Except.ok v => Except.ok v
  | Except.error _ => Except.error typeErrorMessage

/-- `extractResponse` for claude: `(data) => data.content[0].text`. -/
def extractClaude (data : Json) : Except String (Option Json) :=
  match (do
      let content ← jsGet data "content"
      let c0 ← jsIndex content 0
      jsGetO c0 "text" : Except Unit (Option Json)) with
  | Except.ok v => Except.ok v
  | Except.error _ => Except.error typeErrorMessage

/-- `extractResponse` for gemini: guards the whole field path with
truthiness and optional chaining and throws
`Error('Unexpected Gemini response format')` when the guard fails. -/
def extractGemini (data : Json) : Except String (Option Json) :=
  match jsGet data "candidates" with
  | Except.error _ => Except.error typeErrorMessage
  | Except.ok cands =>
    if jsTruthy cands then
      match jsIndex cands 0 with
      | Except.error _ => Except.error typeErrorMessage
      | Except.ok c0 =>
        let t := jsOptChain (jsOptIdx (jsOptChain (jsOptChain c0 "content") "parts") 0) "text"
        if jsTruthy t then Except.ok t
        else Except.error "Unexpected Gemini response format"
    else Except.error "Unexpected Gemini response format"

/-- The registry's `extractResponse` field, per provider. -/
def extractResponse : Provider → Json → Except String (Option Json)
  | Provider.chatgpt => extractChoices
  | Provider.claude => extractClaude
  | Provider.gemini => extractGemini
  | Provider.grok => extractChoices
  | Provider.perplexity => extractChoices

/-- `PROVIDERS[provider]` lookup by id string. -/
def lookupProvider (s : String) : Option Provider :=
  if s = "chatgpt" then some Provider.chatgpt
  else if s = "claude" then some Provider.claude
  else if s = "gemini" then some Provider.gemini
  else if s = "grok" then some Provider.grok
  else if s = "perplexity" then some Provider.perplexity
  else none

/-- Inbound request to `/api/query`: the HTTP method and the two fields the
handler destructures from `req.body` (`none` = absent/undefined). -/
structure ApiRequest where
  method : String
  prompt : Option String
  provider : Option String

/-- A settled outbound HTTP response as the handler observes it:
`response.ok`, `response.status`, `response.text()`, and the result of
parsing the body as JSON (`none` = the parse throws).  The same body backs
`JSON.parse(errorData)` on the error path and `response.json()` on the
success path. -/
structure FetchResponse where
  ok : Bool
  status : Nat
  bodyText : String
  bodyJson : Option Json

/-- Outcome of the outbound `fetch`: a settled response, or a rejection
(network failure) with the error message. -/
inductive FetchResult where
  | success (r : FetchResponse)
  | reject (msg : String)

/-- Observable result of one handler invocation: the response status and
JSON body sent with `res.status(...).json(...)`, plus instrumentation
recording whether the outbound network call was made. -/
structure HandlerResult where
  status : Nat
  body : Json
  networkCalled : Bool

/-- `const apiKey = config.useDynamicUrl ? process.env.GOOGLE_API_KEY
: process.env[config.keyEnvVar];` -/
def apiKeyOf (pv : Provider) (env : String → Option String) : Option String :=
  if useDynamicUrl pv then env "GOOGLE_API_KEY" else env (keyEnvVar pv)

/-- The inner `try { ... } catch (e) { ... }` around the error-body parse:
`parsed.error?.message` if truthy, else `parsed.message` if truthy, else
keep the default (`Except.ok none`); a thrown access error is the
`Except.error` case. -/
def tryParsedMessage (parsed : Json) : Except Unit (Option Json) := do
  let errField ← jsGet parsed "error"
  let m1 := jsOptChain errField "message"
  if jsTruthy m1 then
    return m1
  else
    let m2 ← jsGet parsed "message"
    if jsTruthy m2 then return m2 else return none

/-- The error message derived from a non-ok response body, before the
status-code hints are applied: the parsed `error.message` or `message`
field when present and truthy, else the raw body when shorter than 200,
else the generic default. -/
def bodyDerivedMessage (model : String) (status : Nat) (text : String)
    (json : Option Json) : Json :=
  let dflt := Json.str (model ++ " error (" ++ toString status ++ ")")
  let lenBranch := if text.length < 200 then Json.str text else dflt
  match json with
  | none => lenBranch
  | some parsed =>
    match tryParsedMessage parsed with
    | Except.error _ => lenBranch
    | Except.ok (some v) => v
    | Except.ok none => dflt

/-- The status-code hint chain that overwrites the body-derived message for
statuses 401, 403, 429, 402 and 404. -/
def statusHint (pv : Provider) (status : Nat) (msg : Json) : Json :=
  if status = 401 then
    Json.str ("Invalid API key for " ++ modelName pv ++ ". Check your " ++ keyEnvVar pv ++ " in Vercel.")
  else if status = 403 then
    Json.str ("Access denied for " ++ modelName pv ++ ". Make sure billing is enabled.")
  else if status = 429 then
    Json.str ("Rate limited by " ++ modelName pv ++ ". Wait a moment or check your usage limits.")
  else if status = 402 then
    Json.str ("Payment required for " ++ modelName pv ++ ". Add a payment method to your account.")
  else if status = 404 then
    Json.str ("Model not found. " ++ modelName pv ++ " may require special access or the model ID changed.")
  else msg

/-- `res.status(200).json({ response: text, model: config.modelName })`:
`JSON.stringify` drops a key whose value is `undefined`, so an `undefined`
extraction result produces a body without a `response` field. -/
def successBody (model : String) (t : Option Json) : Json :=
  Json.obj ((match t with
    | some v => [("response", v)]
    | none => []) ++ [("model", Json.str model)])

/-- The handler of `src/pages/api/query.js`, as a pure function of the
request, the environment, and the fetch oracle. -/
def handler (req : ApiRequest) (env : String → Option String)
    (fetch : FetchResult) : HandlerResult :=
  if req.method ≠ "POST" then
    ⟨405, Json.obj [("error", Json.str "Method not allowed")], false⟩
  else if ¬ (truthyOptStr req.prompt ∧ truthyOptStr req.provider) then
    ⟨400, Json.obj [("error", Json.str "Missing prompt or provider")], false⟩
  else
    match lookupProvider (req.provider.getD "") with
    | none => ⟨400, Json.obj [("error", Json.str "Unknown provider")], false⟩
    | some pv =>
      if ¬ truthyOptStr (apiKeyOf pv env) then
        ⟨500, Json.obj [("error", Json.str ("Missing API key: " ++ keyEnvVar pv ++
          ". Add it in Vercel Environment Variables."))], false⟩
      else
        match fetch with
        | FetchResult.reject msg =>
          ⟨500, Json.obj [("error", Json.str (modelName pv ++ ": " ++ msg))], true⟩
        | FetchResult.success r =>
          if ¬ r.ok then
            let errorMessage := bodyDerivedMessage (modelName pv) r.status r.bodyText r.bodyJson
            ⟨r.status, Json.obj [("error", statusHint pv r.status errorMessage)], true⟩
          else
            match r.bodyJson with
            | none =>
              ⟨500, Json.obj [("error", Json.str (modelName pv ++ ": " ++ jsonParseErrorMessage))], true⟩
            | some data =>
              match extractResponse pv data with
              | Except.error e =>
                ⟨500, Json.obj [("error", Json.str (modelName pv ++ ": " ++ e))], true⟩
              | Except.ok t => ⟨200, successBody (modelName pv) t, true⟩

/-! ## Frontend: the `AICompare` component (fan-out coordinator and summary trigger) -/

/-- Display name (`name` field of `AI_PROVIDERS` in the component). -/
def displayName : Provider → String
  | Provider.chatgpt => "ChatGPT"
  | Provider.claude => "Claude"
  | Provider.gemini => "Gemini"
  | Provider.grok => "Grok"
  | Provider.perplexity => "Perplexity"

/-- Model label (`model` field of `AI_PROVIDERS` in the component). -/
def modelLabel : Provider → String
  | Provider.chatgpt => "GPT-4o"
  | Provider.claude => "Opus 4.5"
  | Provider.gemini => "2.5 Pro"
  | Provider.grok => "4"
  | Provider.perplexity => "Sonar Pro"

/-- A value stored in the component's `responses` map for a provider whose
fetch succeeded: `data.response`, which is a string or `undefined` (`none`)
when the backend body had no `response` field. -/
abbrev JsVal := Option String

/-- Truthiness of `responses[p.id]`: the key must be present, defined, and
a non-empty string. -/
def truthyResp : Option JsVal → Bool
  | some (some t) => t != ""
  | _ => false

/-- The `AICompare` component state.  `responses`/`error` map a provider to
`none` when the key is absent; `summary` is a JS string or `undefined`
(`useState('')` initialises it to `some ""`).  `summaryRequests` is
instrumentation: the list of `(prompt, provider)` bodies of the summary
dispatcher calls issued so far. -/
structure CompareState where
  prompt : String
  responses : Provider → Option JsVal
  error : Provider → Option String
  loading : Provider → Bool
  summary : JsVal
  summaryLoading : Bool
  summaryRequests : List (String × String)

/-- Initial component state: `useState('')`, `useState({})`, etc.  A key
absent from the JS `loading` object is falsy, so the empty object is
modelled as the constantly-false map. -/
def initState : CompareState :=
  { prompt := ""
    responses := fun _ => none
    error := fun _ => none
    loading := fun _ => false
    summary := some ""
    summaryLoading := false
    summaryRequests := [] }

/-- `Object.values(loading).some(Boolean)`. -/
def anyLoading (s : CompareState) : Bool :=
  allProviders.any s.loading

/-- `successfulResponses = AI_PROVIDERS.filter((p) => responses[p.id])`:
the truthily-responded providers, in registry order. -/
def succProviders (rs : Provider → Option JsVal) : List Provider :=
  allProviders.filter fun p => truthyResp (rs p)

/-- JavaScript `Array.prototype.join(sep)`. -/
def jsJoin (sep : String) : List String → String
  | [] => ""
  | [x] => x
  | x :: y :: ys => x ++ sep ++ jsJoin sep (y :: ys)

/-- Template-literal interpolation of `responses[p.id]`: an `undefined`
value prints as the string `undefined`. -/
def jsInterp : Option JsVal → String
  | some (some t) => t
  | _ => "undefined"

/-- One provider's block in `responseText`:
`### ${p.name} (${p.model}):\n${responses[p.id]}`. -/
def providerBlock (rs : Provider → Option JsVal) (p : Provider) : String :=
  "### " ++ displayName p ++ " (" ++ modelLabel p ++ "):\n" ++ jsInterp (rs p)

/-- The per-provider delimiter of `responseText`. -/
def blockDelim : String := "\n\n---\n\n"

/-- Text of the synthesis prompt before the interpolated user prompt. -/
def summaryPromptPart1 : String :=
  "You are summarizing AI responses for comparison. The user asked: \""

/-- Text of the synthesis prompt between the user prompt and `responseText`. -/
def summaryPromptPart2 : String :=
  "\"\n\nHere are the responses from different AI models:\n\n"

/-- Text of the synthesis prompt after `responseText`. -/
def summaryPromptPart3 : String :=
  "\n\nProvide a brief synthesis (3-5 sentences) highlighting:\n1. Key points where the AIs agree\n2. Notable differences in their recommendations\n3. Any unique insights from specific models\n\nBe concise and actionable. Don\x27t list each AI separately - synthesize the information."

/-- `responseText` in `generateSummary`. -/
def responseText (rs : Provider → Option JsVal) : String :=
  jsJoin blockDelim ((succProviders rs).map (providerBlock rs))

/-- The full `summaryPrompt` template literal of `generateSummary`. -/
def buildSummaryPrompt (pr : String) (rs : Provider → Option JsVal) : String :=
  ((summaryPromptPart1 ++ pr) ++ summaryPromptPart2) ++ responseText rs ++ summaryPromptPart3

/-- The fixed provider id that `generateSummary` routes the summary call to. -/
def summaryProviderId : String := "claude"

/-- The start of `generateSummary` run by the summary trigger:
`setSummaryLoading(true)` and the single dispatcher call with the built
synthesis prompt, recorded in the instrumentation list. -/
def fireSummary (s : CompareState) : CompareState :=
  { s with summaryLoading := true
           summaryRequests := s.summaryRequests ++
             [(buildSummaryPrompt s.prompt s.responses, summaryProviderId)] }

/-- The `useEffect` condition:
`!anyLoading && successfulResponses.length >= 2 && !summary && !summaryLoading`. -/
def effectCond (s : CompareState) : Bool :=
  !anyLoading s && decide (2 ≤ (succProviders s.responses).length)
    && !truthyOptStr s.summary && !s.summaryLoading

/-- Run the `useEffect` body after a commit that changed `loading` or
`responses`: call `generateSummary` when the condition holds. -/
def afterEffect (s : CompareState) : CompareState :=
  if effectCond s then fireSummary s else s

/-- JavaScript `String.prototype.trim`: strip leading and trailing
whitespace.  (Defined by structural recursion over the character list so
that it evaluates; `String.trim` of the core library is extensionally the
same function but does not reduce in the kernel.) -/
def jsTrim (s : String) : String :=
  String.mk (((s.data.dropWhile Char.isWhitespace).reverse.dropWhile Char.isWhitespace).reverse)

/-- Outcome of one provider's `/api/query` fetch inside `handleSubmit`:
`ok v` is a 200 response whose parsed body had `data.response = v`
(possibly `undefined`); `fail m` is a thrown error with message `m`
(non-ok response rethrown as `data.error || '<name> failed'`, or a
network/parse error). -/
inductive Outcome where
  | ok (v : JsVal)
  | fail (msg : String)

/-- Whether an outcome is the success case. -/
def Outcome.isOk : Outcome → Bool
  | Outcome.ok _ => true
  | Outcome.fail _ => false

/-- Outcome of the summary fetch inside `generateSummary`: a non-ok
response, a 200 response carrying `data.response = v`, or a thrown error. -/
inductive SummaryOutcome where
  | httpError
  | ok (v : JsVal)
  | thrown (msg : String)

/-- Settling of the summary fetch: `setSummary(data.response)` only when
`res.ok`; a thrown error is logged with `console.error`; `finally`
clears `summaryLoading`.  Returns the new state and the log entries
emitted. -/
def summarySettle (s : CompareState) : SummaryOutcome → CompareState × List String
  | SummaryOutcome.httpError => ({ s with summaryLoading := false }, [])
  | SummaryOutcome.ok v => ({ s with summary := v, summaryLoading := false }, [])
  | SummaryOutcome.thrown m =>
    ({ s with summaryLoading := false }, ["Summary generation failed: " ++ m])

/-- Events driving the component state: a submission with the current
textarea content, the settling of one provider's fetch, and the settling
of the summary fetch. -/
inductive Event where
  | submit (pr : String)
  | complete (p : Provider) (o : Outcome)
  | summarySettled (o : SummaryOutcome)

/-- The per-provider state update when one fetch settles: exactly one of
`setResponses`/`setError`, then `setLoading(false)` in `finally` (batched
into one commit). -/
def completeUpd (p : Provider) (o : Outcome) (s : CompareState) : CompareState :=
  match o with
  | Outcome.ok v =>
    { s with responses := Function.update s.responses p (some v)
             loading := Function.update s.loading p false }
  | Outcome.fail m =>
    { s with error := Function.update s.error p (some m)
             loading := Function.update s.loading p false }

/-- Apply one event.  `handleSubmit` no-ops on a blank prompt, else resets
`responses`, `error`, `summary` and sets every provider loading (it does
not reset `summaryLoading`).  Commits that change `loading` or `responses`
re-run the `useEffect`; the summary settling changes neither, so it does
not. -/
def applyEvent : Event → CompareState → CompareState
  | Event.submit pr, s =>
    if jsTrim pr = "" then s
    else afterEffect
      { s with prompt := pr
               responses := fun _ => none
               error := fun _ => none
               summary := some ""
               loading := fun _ => true }
  | Event.complete p o, s => afterEffect (completeUpd p o s)
  | Event.summarySettled o, s => (summarySettle s o).1

/-- Apply a list of events in order. -/
def applyTrace (events : List Event) (s : CompareState) : CompareState :=
  events.foldl (fun s e => applyEvent e s) s

/-- The state right after `handleSubmit` commits for a fresh run in which
no summary call is in flight (the summary slot is NotStarted), with the
instrumentation counter cleared so that it counts this run's calls. -/
def freshRun (pr : String) : CompareState :=
  { prompt := pr
    responses := fun _ => none
    error := fun _ => none
    loading := fun _ => true
    summary := some ""
    summaryLoading := false
    summaryRequests := [] }

/-- One step of a run: provider `p`'s fetch settles with the outcome
assigned by `f`. -/
def stepC (f : Provider → Outcome) (s : CompareState) (p : Provider) : CompareState :=
  applyEvent (Event.complete p (f p)) s

/-- Run the providers' completions in the order given by `l`. -/
def runC (f : Provider → Outcome) (l : List Provider) (s : CompareState) : CompareState :=
  l.foldl (stepC f) s

/-- The `responses` value a provider ends with once its own call settled. -/
def outVal : Outcome → Option JsVal
  | Outcome.ok v => some v
  | Outcome.fail _ => none

/-- The number of providers whose outcome is a truthy success: the final
value of `successfulResponses.length`. -/
def finalSucc (f : Provider → Outcome) : Nat :=
  (allProviders.filter fun p => truthyResp (outVal (f p))).length

/-- Rendered body of one provider card: the loading spinner, the error
text (shown iff truthy), the response text (shown iff truthy), and the
idle placeholder. -/
structure CardView where
  spinner : Bool
  errorText : Option String
  responseText : Option String
  placeholder : Bool
deriving DecidableEq, Repr

/-- The card body for provider `p` as a function of the component state
(the four conditionally rendered elements of the response grid). -/
def cardView (s : CompareState) (p : Provider) : CardView :=
  { spinner := s.loading p
    errorText := if truthyOptStr (s.error p) then s.error p else none
    responseText :=
      match s.responses p with
      | some (some t) => if t != "" then some t else none
      | _ => none
    placeholder := !s.loading p && !truthyOptStr (s.error p) && !truthyResp (s.responses p) }

/-- The summary panel: hidden unless `summary || summaryLoading`; when
shown it holds the summary text if truthy, else the synthesizing spinner.
There is no error variant. -/
inductive SummaryPanel where
  | hidden
  | showingText (t : String)
  | synthesizing
deriving DecidableEq, Repr

/-- The rendered summary panel as a function of the component state. -/
def summaryPanel (s : CompareState) : SummaryPanel :=
  if truthyOptStr s.summary || s.summaryLoading then
    match s.summary with
    | some t => if t != "" then SummaryPanel.showingText t else SummaryPanel.synthesizing
    | none => SummaryPanel.synthesizing
  else SummaryPanel.hidden

/-! ## Helper lemmas on strings and joins -/

/-- Every element of a joined list occurs verbatim in the join. -/
theorem jsJoin_mem_decomp (sep : String) :
    ∀ (l : List String) (x : String), x ∈ l →
      ∃ a b : String, jsJoin sep l = a ++ x ++ b := by
  intro l
  induction l with
  | nil => intro x hx; cases hx
  | cons y ys ih =>
    intro x hx
    cases ys with
    | nil =>
      refine ⟨"", "", ?_⟩
      rcases List.mem_singleton.mp hx with rfl
      simp [jsJoin]
    | cons z zs =>
      rcases List.mem_cons.mp hx with rfl | hxs
      · exact ⟨"", sep ++ jsJoin sep (z :: zs), by
          simp [jsJoin, String.append_assoc]⟩
      · obtain ⟨a, b, hab⟩ := ih x hxs
        refine ⟨y ++ sep ++ a, b, ?_⟩
        simp [jsJoin, hab, String.append_assoc]

/-- The `useEffect` body never touches the per-provider `loading` map. -/
theorem afterEffect_loading (s : CompareState) : (afterEffect s).loading = s.loading := by
  unfold afterEffect fireSummary; split <;> rfl

/-- The `useEffect` body never touches the per-provider `responses` map. -/
theorem afterEffect_responses (s : CompareState) : (afterEffect s).responses = s.responses := by
  unfold afterEffect fireSummary; split <;> rfl

/-- The `useEffect` body never touches the per-provider `error` map. -/
theorem afterEffect_error (s : CompareState) : (afterEffect s).error = s.error := by
  unfold afterEffect fireSummary; split <;> rfl

/-- The `useEffect` body never touches the `summary` slot itself. -/
theorem afterEffect_summary (s : CompareState) : (afterEffect s).summary = s.summary := by
  unfold afterEffect fireSummary; split <;> rfl

/-- The `useEffect` body never touches the prompt. -/
theorem afterEffect_prompt (s : CompareState) : (afterEffect s).prompt = s.prompt := by
  unfold afterEffect fireSummary; split <;> rfl

/-- C10: a request to the query endpoint whose HTTP method is not POST is
answered with status 405 and an error body, before the provider lookup,
the credential check, or the outbound network call: the result does not
depend on the environment or on the fetch oracle at all, and the
network-call instrumentation stays false. -/
theorem c10_non_post_rejected (req : ApiRequest)
    (env1 env2 : String → Option String) (f1 f2 : FetchResult)
    (hm : req.method ≠ "POST") :
    handler req env1 f1 =
      ⟨405, Json.obj [("error", Json.str "Method not allowed")], false⟩ ∧
    handler req env1 f1 = handler req env2 f2 := by
  constructor <;> simp [handler, hm]

/-- Witness for C10 at a concrete GET request. -/
theorem c10_witness :
    handler ⟨"GET", some "hello", some "chatgpt"⟩ (fun _ => none) (FetchResult.reject "x") =
      ⟨405, Json.obj [("error", Json.str "Method not allowed")], false⟩ ∧
    handler ⟨"GET", some "hello", some "chatgpt"⟩ (fun _ => none) (FetchResult.reject "x") =
      handler ⟨"GET", some "hello", some "chatgpt"⟩ (fun _ => some "key")
        (FetchResult.success ⟨true, 200, "", none⟩) :=
  c10_non_post_rejected ⟨"GET", some "hello", some "chatgpt"⟩ _ _ _ _ (by decide)

/-- C3: a POST request naming a registered provider whose required
credential is absent (or empty) in the environment is answered with a 500
whose error message names the credential variable, and the outbound
network call is never made. -/
theorem c3_missing_credential_no_network (pv : Provider) (req : ApiRequest)
    (env : String → Option String) (f : FetchResult)
    (hm : req.method = "POST")
    (hp : truthyOptStr req.prompt = true)
    (hpv : req.provider = some (providerId pv))
    (hk : truthyOptStr (apiKeyOf pv env) = false) :
    handler req env f =
      ⟨500, Json.obj [("error", Json.str ("Missing API key: " ++ keyEnvVar pv ++
        ". Add it in Vercel Environment Variables."))], false⟩ := by
  have hprov : truthyOptStr req.provider = true := by
    rw [hpv]; cases pv <;> decide
  have hlook : lookupProvider (req.provider.getD "") = some pv := by
    rw [hpv]; cases pv <;> rfl
  simp [handler, hm, hp, hprov, hlook, hk]

/-- Witness for C3: chatgpt with no OPENAI_API_KEY in the environment. -/
theorem c3_witness :
    truthyOptStr (apiKeyOf Provider.chatgpt (fun _ => none)) = false ∧
    handler ⟨"POST", some "hello", some "chatgpt"⟩ (fun _ => none) (FetchResult.reject "never") =
      ⟨500, Json.obj [("error", Json.str
        "Missing API key: OPENAI_API_KEY. Add it in Vercel Environment Variables.")], false⟩ :=
  ⟨by decide,
   c3_missing_credential_no_network Provider.chatgpt _ _ _ rfl (by decide) rfl (by decide)⟩

/-- C4: on a non-success provider response the handler classifies the
failure by status code — 401 names the model and its credential variable,
403 a billing hint, 429 a rate-limit hint, 402 a payment hint, 404 a
model-not-found hint, and any other status carries the message derived
from the parsed error body (or the short raw body, or the generic
default) — and passes the classified error through with the provider's
original status code. -/
theorem c4_error_classification (pv : Provider) (req : ApiRequest)
    (env : String → Option String) (r : FetchResponse)
    (hm : req.method = "POST")
    (hp : truthyOptStr req.prompt = true)
    (hpv : req.provider = some (providerId pv))
    (hk : truthyOptStr (apiKeyOf pv env) = true)
    (hok : r.ok = false) :
    handler req env (FetchResult.success r) =
      ⟨r.status, Json.obj [("error",
        if r.status = 401 then
          Json.str ("Invalid API key for " ++ modelName pv ++ ". Check your " ++
            keyEnvVar pv ++ " in Vercel.")
        else if r.status = 403 then
          Json.str ("Access denied for " ++ modelName pv ++ ". Make sure billing is enabled.")
        else if r.status = 429 then
          Json.str ("Rate limited by " ++ modelName pv ++
            ". Wait a moment or check your usage limits.")
        else if r.status = 402 then
          Json.str ("Payment required for " ++ modelName pv ++
            ". Add a payment method to your account.")
        else if r.status = 404 then
          Json.str ("Model not found. " ++ modelName pv ++
            " may require special access or the model ID changed.")
        else bodyDerivedMessage (modelName pv) r.status r.bodyText r.bodyJson)], true⟩ := by
  have hprov : truthyOptStr req.provider = true := by
    rw [hpv]; cases pv <;> decide
  have hlook : lookupProvider (req.provider.getD "") = some pv := by
    rw [hpv]; cases pv <;> rfl
  simp [handler, hm, hp, hprov, hlook, hk, hok, statusHint]

/-- Witness for C4: gemini answering 401 yields the credential hint with
the original 401 status. -/
theorem c4_witness :
    (⟨false, 401, "denied", none⟩ : FetchResponse).ok = false ∧
    handler ⟨"POST", some "hello", some "gemini"⟩ (fun _ => some "g-key")
        (FetchResult.success ⟨false, 401, "denied", none⟩) =
      ⟨401, Json.obj [("error", Json.str
        "Invalid API key for Gemini 3 Pro. Check your GOOGLE_API_KEY in Vercel.")], true⟩ :=
  ⟨rfl,
   c4_error_classification Provider.gemini _ _ _ rfl (by decide) rfl (by decide) rfl⟩

/-- C9: when a launched provider's fetch settles, its loading flag is
cleared on every path (the `finally`), and exactly one of its response
slot or its error slot is set — the response slot exactly on the success
path, the error slot exactly on the failure path, never both and never
neither — so the provider does not remain Pending after its own call
settles. -/
theorem c9_completion_settles_exactly_one (s : CompareState) (p : Provider) (o : Outcome)
    (_hl : s.loading p = true) (hr : s.responses p = none) (he : s.error p = none) :
    ((applyEvent (Event.complete p o) s).loading p = false) ∧
    ((applyEvent (Event.complete p o) s).responses p).isSome = o.isOk ∧
    ((applyEvent (Event.complete p o) s).error p).isSome = !o.isOk ∧
    (((applyEvent (Event.complete p o) s).responses p).isSome
      && ((applyEvent (Event.complete p o) s).error p).isSome) = false ∧
    (((applyEvent (Event.complete p o) s).responses p).isSome
      || ((applyEvent (Event.complete p o) s).error p).isSome) = true := by
  cases o <;>
    simp [applyEvent, afterEffect_loading, afterEffect_responses, afterEffect_error,
      completeUpd, Outcome.isOk, hr, he]

/-- Witness for C9: chatgpt failing in a fresh run. -/
theorem c9_witness :
    (freshRun "q").loading Provider.chatgpt = true ∧
    ((applyEvent (Event.complete Provider.chatgpt (Outcome.fail "ChatGPT failed"))
        (freshRun "q")).loading Provider.chatgpt = false) ∧
    ((applyEvent (Event.complete Provider.chatgpt (Outcome.fail "ChatGPT failed"))
        (freshRun "q")).responses Provider.chatgpt).isSome = (Outcome.fail "ChatGPT failed").isOk := by
  refine ⟨rfl, ?_, ?_⟩
  · exact (c9_completion_settles_exactly_one (freshRun "q") Provider.chatgpt
      (Outcome.fail "ChatGPT failed") rfl rfl rfl).1
  · exact (c9_completion_settles_exactly_one (freshRun "q") Provider.chatgpt
      (Outcome.fail "ChatGPT failed") rfl rfl rfl).2.1

/-- C8: a provider whose dispatch succeeded with the empty string is not
treated as succeeded: it is excluded from `successfulResponses` (the list
that both the summary-trigger count and the synthesis prompt are built
from), its card never shows a response body, and — once it is not loading
and has no error — its card shows the idle placeholder. -/
theorem c8_empty_text_not_succeeded (s : CompareState) (p : Provider)
    (h : s.responses p = some (some "")) :
    p ∉ succProviders s.responses ∧
    (cardView s p).responseText = none ∧
    (s.loading p = false → s.error p = none →
      cardView s p = ⟨false, none, none, true⟩) := by
  refine ⟨?_, ?_, ?_⟩
  · simp [succProviders, List.mem_filter, h, truthyResp]
  · simp [cardView, h]
  · intro hl he
    simp [cardView, h, hl, he, truthyOptStr, truthyResp]

/-- Witness for C8: a state in which chatgpt returned the empty string. -/
theorem c8_witness :
    ({ freshRun "q" with
        responses := Function.update (fun _ => none) Provider.chatgpt (some (some ""))
        loading := fun _ => false } : CompareState).responses Provider.chatgpt
      = some (some "") ∧
    Provider.chatgpt ∉ succProviders ({ freshRun "q" with
        responses := Function.update (fun _ => none) Provider.chatgpt (some (some ""))
        loading := fun _ => false } : CompareState).responses ∧
    cardView ({ freshRun "q" with
        responses := Function.update (fun _ => none) Provider.chatgpt (some (some ""))
        loading := fun _ => false } : CompareState) Provider.chatgpt
      = ⟨false, none, none, true⟩ := by
  refine ⟨by simp [freshRun], ?_, ?_⟩
  · exact (c8_empty_text_not_succeeded _ Provider.chatgpt (by simp [freshRun])).1
  · exact (c8_empty_text_not_succeeded _ Provider.chatgpt (by simp [freshRun])).2.2 rfl rfl

/-- C2 (exhibit of the code's behavior at the failing input): the
component has no run identifier or generation counter, so when
`handleSubmit` is called a second time (reachable via the Cmd+Enter
keydown path, which bypasses the disabled button) while the first run's
providers are still pending, a late completion belonging to the first run
writes straight into the second run's `responses` map: right after the
second submit the chatgpt slot is empty, and the superseded run's
completion then fills it. -/
theorem c2_stale_completion_mutates_new_run :
    (applyTrace [Event.submit "first prompt", Event.submit "second prompt"]
        initState).responses Provider.chatgpt = none ∧
    (applyTrace [Event.submit "first prompt", Event.submit "second prompt",
        Event.complete Provider.chatgpt (Outcome.ok (some "stale response"))]
        initState).responses Provider.chatgpt = some (some "stale response") := by
  constructor <;> rfl

/-- C7 counterexample: when the summary call fails with a non-success
HTTP response (`res.ok` false), `generateSummary` emits no log entry at
all — `console.error` runs only in the `catch` branch — refuting the
claim that every summary failure is logged.  The summary slot is indeed
left empty. -/
theorem c7_counterexample_http_failure_not_logged :
    (summarySettle { freshRun "q" with summaryLoading := true, loading := fun _ => false }
        SummaryOutcome.httpError).2 = [] ∧
    (summarySettle { freshRun "q" with summaryLoading := true, loading := fun _ => false }
        SummaryOutcome.httpError).1.summary = some "" :=
  ⟨rfl, rfl⟩

/-- C7 (amended): when the summary dispatcher call fails — non-success
response or thrown error — the summary slot keeps its value (Done is
never set), `summaryLoading` is cleared, no provider's responses, errors,
loading flags or rendered card change, the summary panel is hidden (so no
error is ever shown to the user for the summary); the failure is logged
only when the call throws, while a non-success HTTP response is ignored
silently without any log entry. -/
theorem c7_amended_silent_degradation (s : CompareState) (o : SummaryOutcome)
    (hfail : ∀ v, o ≠ SummaryOutcome.ok v)
    (hsum : truthyOptStr s.summary = false) :
    (summarySettle s o).1.summary = s.summary ∧
    (summarySettle s o).1.summaryLoading = false ∧
    (summarySettle s o).1.responses = s.responses ∧
    (summarySettle s o).1.error = s.error ∧
    (summarySettle s o).1.loading = s.loading ∧
    (∀ p, cardView (summarySettle s o).1 p = cardView s p) ∧
    summaryPanel (summarySettle s o).1 = SummaryPanel.hidden ∧
    (∀ m, o = SummaryOutcome.thrown m →
      (summarySettle s o).2 = ["Summary generation failed: " ++ m]) ∧
    (o = SummaryOutcome.httpError → (summarySettle s o).2 = []) := by
  cases o with
  | httpError =>
    refine ⟨rfl, rfl, rfl, rfl, rfl, fun p => rfl, ?_, ?_, fun _ => rfl⟩
    · simp [summaryPanel, summarySettle, hsum]
    · intro m h; cases h
  | ok v => exact absurd rfl (hfail v)
  | thrown m =>
    refine ⟨rfl, rfl, rfl, rfl, rfl, fun p => rfl, ?_, ?_, ?_⟩
    · simp [summaryPanel, summarySettle, hsum]
    · intro m' h; cases h; rfl
    · intro h; cases h

/-- Witness for the amended C7 at a thrown summary failure in a fresh run. -/
theorem c7_witness :
    truthyOptStr ({ freshRun "p7" with summaryLoading := true } : CompareState).summary = false ∧
    summaryPanel (summarySettle { freshRun "p7" with summaryLoading := true }
        (SummaryOutcome.thrown "network down")).1 = SummaryPanel.hidden ∧
    (summarySettle { freshRun "p7" with summaryLoading := true }
        (SummaryOutcome.thrown "network down")).2 =
      ["Summary generation failed: " ++ "network down"] := by
  refine ⟨by decide, ?_, ?_⟩
  · exact (c7_amended_silent_degradation _ _ (fun v h => by cases h)
      (by decide)).2.2.2.2.2.2.1
  · exact (c7_amended_silent_degradation _ _ (fun v h => by cases h)
      (by decide)).2.2.2.2.2.2.2.1 "network down" rfl

/-- A settling provider's loading flag is cleared; the others are untouched. -/
theorem completeUpd_loading (p : Provider) (o : Outcome) (s : CompareState) (q : Provider) :
    (completeUpd p o s).loading q = if q = p then false else s.loading q := by
  cases o <;> simp [completeUpd, Function.update_apply]

/-- Once a pending provider settles, its response slot holds `outVal` of
its outcome; other slots are untouched. -/
theorem completeUpd_responses_settled (p : Provider) (o : Outcome) (s : CompareState)
    (h : s.responses p = none) (q : Provider) :
    (completeUpd p o s).responses q = if q = p then outVal o else s.responses q := by
  cases o with
  | ok v => simp [completeUpd, Function.update_apply, outVal]
  | fail m =>
    simp only [completeUpd, outVal]
    split
    · next heq => rw [heq, h]
    · rfl

/-- A completion step never touches the summary slot. -/
theorem completeUpd_summary (p : Provider) (o : Outcome) (s : CompareState) :
    (completeUpd p o s).summary = s.summary := by cases o <;> rfl

/-- A completion step never touches the summary-loading flag. -/
theorem completeUpd_summaryLoading (p : Provider) (o : Outcome) (s : CompareState) :
    (completeUpd p o s).summaryLoading = s.summaryLoading := by cases o <;> rfl

/-- A completion step never records a summary request by itself. -/
theorem completeUpd_summaryRequests (p : Provider) (o : Outcome) (s : CompareState) :
    (completeUpd p o s).summaryRequests = s.summaryRequests := by cases o <;> rfl

/-- Core invariant of one run: starting from a state in which exactly the
providers of `l` are still loading, every settled provider already holds
its outcome, the summary is falsy and no summary call is in flight,
folding the remaining completions (in any duplicate-free order) issues
exactly one summary dispatcher call when the final succeeded count
reaches 2, and none otherwise. -/
theorem runC_calls (f : Provider → Outcome) :
    ∀ (l : List Provider) (s : CompareState),
      l ≠ [] → l.Nodup →
      (∀ q, s.loading q = decide (q ∈ l)) →
      (∀ q, q ∉ l → s.responses q = outVal (f q)) →
      (∀ q, q ∈ l → s.responses q = none) →
      truthyOptStr s.summary = false →
      s.summaryLoading = false →
      (runC f l s).summaryRequests.length =
        s.summaryRequests.length + (if 2 ≤ finalSucc f then 1 else 0) := by
  intro l
  induction l with
  | nil => intro s h; cases h rfl
  | cons p rest ih =>
    intro s _ hnd hload hcomp hpend hsum hsl
    have hpnotrest : p ∉ rest := (List.nodup_cons.mp hnd).1
    have hreq : (completeUpd p (f p) s).summaryRequests = s.summaryRequests :=
      completeUpd_summaryRequests p (f p) s
    have hrespq : ∀ q, (completeUpd p (f p) s).responses q =
        if q = p then outVal (f p) else s.responses q :=
      completeUpd_responses_settled p (f p) s (hpend p (List.mem_cons_self p rest))
    cases rest with
    | nil =>
      -- the last provider settles: the effect sees no pending provider
      have hallresp : ∀ q, (completeUpd p (f p) s).responses q = outVal (f q) := by
        intro q
        rw [hrespq q]
        split
        · next heq => rw [heq]
        · next hne =>
          exact hcomp q (by simp [hne])
      have hnoload : ∀ q, (completeUpd p (f p) s).loading q = false := by
        intro q
        rw [completeUpd_loading]
        split
        · rfl
        · next hne => rw [hload q]; simp [hne]
      have hanyl : anyLoading (completeUpd p (f p) s) = false := by
        simp only [anyLoading, List.any_eq_false]
        intro q _
        simp [hnoload q]
      have hcount : (succProviders (completeUpd p (f p) s).responses).length = finalSucc f := by
        unfold succProviders finalSucc
        congr 1
        apply List.filter_congr
        intro q _
        rw [hallresp q]
      have hcond : effectCond (completeUpd p (f p) s) = decide (2 ≤ finalSucc f) := by
        unfold effectCond
        rw [hanyl, hcount, completeUpd_summary, completeUpd_summaryLoading, hsum, hsl]
        cases h2 : decide (2 ≤ finalSucc f) <;> simp [h2]
      show (afterEffect (completeUpd p (f p) s)).summaryRequests.length = _
      unfold afterEffect
      rw [hcond]
      cases h2 : decide (2 ≤ finalSucc f) with
      | false =>
        have : ¬ 2 ≤ finalSucc f := of_decide_eq_false h2
        simp [this, hreq]
      | true =>
        have : 2 ≤ finalSucc f := of_decide_eq_true h2
        simp [this, fireSummary, hreq]
    | cons r rs =>
      -- a provider settles while others are still pending: no effect fires
      have hrload : (completeUpd p (f p) s).loading r = true := by
        rw [completeUpd_loading]
        have hrp : r ≠ p := by
          intro h; exact hpnotrest (h ▸ List.mem_cons_self r rs)
        rw [if_neg hrp, hload r]
        simp
      have hanyl : anyLoading (completeUpd p (f p) s) = true := by
        simp only [anyLoading, List.any_eq_true]
        exact ⟨r, mem_allProviders r, hrload⟩
      have hcond : effectCond (completeUpd p (f p) s) = false := by
        unfold effectCond
        rw [hanyl]
        rfl
      have hstep : stepC f s p = completeUpd p (f p) s := by
        simp [stepC, applyEvent, afterEffect, hcond]
      have hrun : runC f (p :: r :: rs) s = runC f (r :: rs) (completeUpd p (f p) s) := by
        unfold runC
        rw [List.foldl_cons, hstep]
      rw [hrun]
      rw [ih (completeUpd p (f p) s) (by simp) (List.nodup_cons.mp hnd).2
        ?_ ?_ ?_ ?_ ?_]
      · rw [hreq]
      · intro q
        rw [completeUpd_loading]
        split
        · next heq =>
          subst heq
          simp [hpnotrest]
        · next hne =>
          rw [hload q]
          simp [hne]
      · intro q hq
        rw [hrespq q]
        split
        · next heq => rw [heq]
        · next hne =>
          refine hcomp q ?_
          simp [hne, hq]
      · intro q hq
        rw [hrespq q]
        have hqp : ¬ q = p := by
          intro h; subst h; exact hpnotrest hq
        rw [if_neg hqp]
        exact hpend q (List.mem_cons_of_mem p hq)
      · rw [completeUpd_summary]; exact hsum
      · rw [completeUpd_summaryLoading]; exact hsl

/-- C1: in a run whose summary slot is NotStarted (fresh `handleSubmit`
state, no summary call in flight), however the five providers' completions
are ordered, the summary trigger issues exactly one summary dispatcher
call when the final succeeded count is at least 2, and zero summary calls
ever when it is below 2 — in particular it never fires more than once per
run, and never before every provider has settled. -/
theorem c1_summary_trigger_fires_iff_two_successes (pr : String)
    (f : Provider → Outcome) (order : List Provider)
    (hperm : order.Perm allProviders) :
    (runC f order (freshRun pr)).summaryRequests.length =
      if 2 ≤ finalSucc f then 1 else 0 := by
  have hlen : order.length = allProviders.length := hperm.length_eq
  have hne : order ≠ [] := by
    intro h
    rw [h] at hlen
    simp [allProviders] at hlen
  have hnd : order.Nodup := hperm.nodup_iff.mpr (by decide)
  have hmem : ∀ q, q ∈ order := fun q => hperm.mem_iff.mpr (mem_allProviders q)
  have h := runC_calls f order (freshRun pr) hne hnd
    (fun q => by simp [freshRun, hmem q])
    (fun q hq => absurd (hmem q) hq)
    (fun q _ => rfl) rfl rfl
  simpa [freshRun] using h

/-- Witness for C1: all five succeeding yields exactly one summary call;
one success and four failures yields zero. -/
theorem c1_witness :
    (runC (fun _ => Outcome.ok (some "hello")) allProviders
      (freshRun "w1")).summaryRequests.length = 1 ∧
    (runC (fun p => if p = Provider.claude then Outcome.ok (some "hello")
        else Outcome.fail "boom") allProviders
      (freshRun "w1")).summaryRequests.length = 0 :=
  ⟨(c1_summary_trigger_fires_iff_two_successes "w1" _ allProviders
      (List.Perm.refl _)).trans (by decide),
   (c1_summary_trigger_fires_iff_two_successes "w1" _ allProviders
      (List.Perm.refl _)).trans (by decide)⟩

/-- Every summary request the `useEffect` body records is routed to the
fixed provider id. -/
theorem afterEffect_requests_routed (s : CompareState) (r : String × String)
    (hr : r ∈ (afterEffect s).summaryRequests) :
    r ∈ s.summaryRequests ∨ r.2 = summaryProviderId := by
  unfold afterEffect fireSummary at hr
  split at hr
  · rcases List.mem_append.mp hr with h | h
    · exact Or.inl h
    · right
      rcases List.mem_singleton.mp h with rfl
      rfl
  · exact Or.inl hr

/-- No event application ever records a summary request routed to a
provider other than the fixed one. -/
theorem applyEvent_requests_routed (e : Event) (s : CompareState)
    (h : ∀ r ∈ s.summaryRequests, r.2 = summaryProviderId) :
    ∀ r ∈ (applyEvent e s).summaryRequests, r.2 = summaryProviderId := by
  intro r hr
  cases e with
  | submit pr =>
    simp only [applyEvent] at hr
    split at hr
    · exact h r hr
    · rcases afterEffect_requests_routed _ r hr with hmem | hclaude
      · exact h r hmem
      · exact hclaude
  | complete p o =>
    simp only [applyEvent] at hr
    rcases afterEffect_requests_routed _ r hr with hmem | hclaude
    · rw [completeUpd_summaryRequests] at hmem
      exact h r hmem
    · exact hclaude
  | summarySettled o =>
    simp only [applyEvent] at hr
    cases o <;> exact h r hr

/-- Over any event trace from the initial state, every recorded summary
request is routed to the fixed provider id. -/
theorem applyTrace_requests_routed (es : List Event) :
    ∀ r ∈ (applyTrace es initState).summaryRequests, r.2 = summaryProviderId := by
  suffices hgen : ∀ (es : List Event) (s : CompareState),
      (∀ r ∈ s.summaryRequests, r.2 = summaryProviderId) →
      ∀ r ∈ (applyTrace es s).summaryRequests, r.2 = summaryProviderId by
    exact hgen es initState (by intro r hr; cases hr)
  intro es
  induction es with
  | nil => intro s h; exact h
  | cons e rest ih =>
    intro s h
    exact ih (applyEvent e s) (applyEvent_requests_routed e s h)

/-- C6: the synthesis prompt contains the original user prompt verbatim;
the succeeded-provider list it is built from is a sublist of the registry
(hence in registry order) containing exactly the truthily-succeeded
providers; the prompt embeds the full delimiter-joined sequence of
per-provider blocks, and hence every succeeded provider's display name,
model label and full text verbatim in its block; and every summary
dispatcher call a trace ever records is routed to the fixed provider id
`claude`, not a user-selectable one. -/
theorem c6_summary_prompt_roundtrip (pr : String) (rs : Provider → Option JsVal) :
    (∃ a b, buildSummaryPrompt pr rs = a ++ pr ++ b) ∧
    (succProviders rs).Sublist allProviders ∧
    (∀ p, p ∈ succProviders rs ↔ truthyResp (rs p) = true) ∧
    (∃ a b, buildSummaryPrompt pr rs =
      a ++ jsJoin blockDelim ((succProviders rs).map (providerBlock rs)) ++ b) ∧
    (∀ p ∈ succProviders rs,
      ∃ a b, buildSummaryPrompt pr rs = a ++ providerBlock rs p ++ b) ∧
    (∀ (es : List Event) r, r ∈ (applyTrace es initState).summaryRequests →
      r.2 = "claude") := by
  refine ⟨?_, ?_, ?_, ?_, ?_, ?_⟩
  · exact ⟨summaryPromptPart1,
      summaryPromptPart2 ++ (responseText rs ++ summaryPromptPart3),
      by simp [buildSummaryPrompt, String.append_assoc]⟩
  · exact List.filter_sublist _
  · intro p
    simp [succProviders, List.mem_filter, mem_allProviders]
  · exact ⟨(summaryPromptPart1 ++ pr) ++ summaryPromptPart2, summaryPromptPart3,
      by simp [buildSummaryPrompt, responseText, String.append_assoc]⟩
  · intro p hp
    obtain ⟨a, b, hab⟩ := jsJoin_mem_decomp blockDelim
      ((succProviders rs).map (providerBlock rs)) (providerBlock rs p)
      (List.mem_map_of_mem _ hp)
    refine ⟨((summaryPromptPart1 ++ pr) ++ summaryPromptPart2) ++ a,
      b ++ summaryPromptPart3, ?_⟩
    simp [buildSummaryPrompt, responseText, hab, String.append_assoc]
  · exact fun es r hr => applyTrace_requests_routed es r hr

/-- Test fixture: a run in which chatgpt and claude succeeded. -/
def sampleResponses : Provider → Option JsVal := fun p =>
  if p = Provider.chatgpt then some (some "alpha")
  else if p = Provider.claude then some (some "beta") else none

/-- Witness for C6: in the two-success fixture, claude is a succeeded
provider and its block occurs verbatim in the built synthesis prompt. -/
theorem c6_witness :
    Provider.claude ∈ succProviders sampleResponses ∧
    (∃ a b, buildSummaryPrompt "wq" sampleResponses =
      a ++ providerBlock sampleResponses Provider.claude ++ b) :=
  ⟨by decide,
   (c6_summary_prompt_roundtrip "wq" sampleResponses).2.2.2.2.1 Provider.claude (by decide)⟩

/-- C5 counterexample: a 200 chatgpt response whose body has the
`choices[0].message` object but no `content` field — the expected field
path is absent, yet the extractor returns `undefined` without throwing and
the handler answers 200 with a body that merely omits the `response`
field, not a MalformedResponse failure. -/
theorem c5_counterexample_leaf_missing_returns_200 :
    extractResponse Provider.chatgpt
      (Json.obj [("choices", Json.arr [Json.obj [("message", Json.obj [])]])]) =
      Except.ok none ∧
    handler ⟨"POST", some "hi", some "chatgpt"⟩
      (fun k => if k = "OPENAI_API_KEY" then some "sk" else none)
      (FetchResult.success ⟨true, 200, "raw",
        some (Json.obj [("choices", Json.arr [Json.obj [("message", Json.obj [])]])])⟩) =
      ⟨200, Json.obj [("model", Json.str "GPT-5.2")], true⟩ :=
  ⟨rfl, rfl⟩

/-- C5 (amended): past the handler's argument checks, every possible
fetch outcome is converted into a well-formed response — an error body or
a 200 success body — never an unhandled exception; and whenever the
extractor throws on a decoded 200 body (a missing intermediate segment of
the field path, or Gemini's explicit format check), the handler returns a
500 failure naming the model.  Only a body missing merely the final field
of the path escapes as a 200 success with the response field omitted. -/
theorem c5_amended_failures_caught (pv : Provider) (req : ApiRequest)
    (env : String → Option String) (fr : FetchResult)
    (hm : req.method = "POST")
    (hp : truthyOptStr req.prompt = true)
    (hpv : req.provider = some (providerId pv))
    (hk : truthyOptStr (apiKeyOf pv env) = true) :
    ((∃ m, (handler req env fr).body = Json.obj [("error", m)]) ∨
      (∃ t, handler req env fr = ⟨200, successBody (modelName pv) t, true⟩)) ∧
    (∀ r d msg, fr = FetchResult.success r → r.ok = true → r.bodyJson = some d →
      extractResponse pv d = Except.error msg →
      handler req env fr = ⟨500, Json.obj [("error",
        Json.str (modelName pv ++ ": " ++ msg))], true⟩) := by
  have hprov : truthyOptStr req.provider = true := by
    rw [hpv]; cases pv <;> decide
  have hlook : lookupProvider (req.provider.getD "") = some pv := by
    rw [hpv]; cases pv <;> rfl
  constructor
  · cases fr with
    | reject msg =>
      exact Or.inl ⟨Json.str (modelName pv ++ ": " ++ msg),
        by simp [handler, hm, hp, hprov, hlook, hk]⟩
    | success r =>
      by_cases hok : r.ok = true
      · cases hbj : r.bodyJson with
        | none =>
          exact Or.inl ⟨Json.str (modelName pv ++ ": " ++ jsonParseErrorMessage),
            by simp [handler, hm, hp, hprov, hlook, hk, hok, hbj]⟩
        | some data =>
          cases hex : extractResponse pv data with
          | error e =>
            exact Or.inl ⟨Json.str (modelName pv ++ ": " ++ e),
              by simp [handler, hm, hp, hprov, hlook, hk, hok, hbj, hex]⟩
          | ok t =>
            exact Or.inr ⟨t,
              by simp [handler, hm, hp, hprov, hlook, hk, hok, hbj, hex]⟩
      · exact Or.inl ⟨statusHint pv r.status
          (bodyDerivedMessage (modelName pv) r.status r.bodyText r.bodyJson),
          by simp [handler, hm, hp, hprov, hlook, hk, hok]⟩
  · intro r d msg hfr hok hbj hex
    subst hfr
    simp [handler, hm, hp, hprov, hlook, hk, hok, hbj, hex]

/-- Witness for the amended C5: a 200 gemini body failing the explicit
format check is converted into a 500 failure naming the model. -/
theorem c5_witness :
    extractResponse Provider.gemini (Json.obj [("foo", Json.num 1)]) =
      Except.error "Unexpected Gemini response format" ∧
    handler ⟨"POST", some "hi", some "gemini"⟩ (fun _ => some "gk")
      (FetchResult.success ⟨true, 200, "raw", some (Json.obj [("foo", Json.num 1)])⟩) =
      ⟨500, Json.obj [("error", Json.str
        ("Gemini 3 Pro" ++ ": " ++ "Unexpected Gemini response format"))], true⟩ :=
  ⟨rfl,
   (c5_amended_failures_caught Provider.gemini ⟨"POST", some "hi", some "gemini"⟩
      (fun _ => some "gk")
      (FetchResult.success ⟨true, 200, "raw", some (Json.obj [("foo", Json.num 1)])⟩)
      rfl (by decide) rfl (by decide)).2
    ⟨true, 200, "raw", some (Json.obj [("foo", Json.num 1)])⟩
    (Json.obj [("foo", Json.num 1)]) "Unexpected Gemini response format" rfl rfl rfl rfl⟩
